import Mathlib

/-!
Verification of the AI-provider dispatch/retry layer and the inventory-intent
pipeline of the chatbot backend, as a shallow embedding in Lean.

Sources embedded:
* `src/utils/mistralClient.js` — the Mistral provider client: message-list
  construction, the retry loop of `generateResponse` /
  `generateStreamingResponse`, the `_shouldRetryRequest` classifier, and the
  streaming line handler.
* `src/unnamed/part_007` (openaiClient.js) — the OpenAI provider client's
  streaming line handler and stream-end handler.
* `src/unnamed/part_009` (aiClientManager.js) — provider selection
  (`getClient`).
* `src/unnamed/part_012` (chat inventory routes) — the direct order endpoint
  (`POST /order`), and the intent endpoint (`POST /intent`): intent resolution
  from the AI reply object and the stock-check / order orchestration.

JavaScript values that matter here are modelled explicitly: a possibly-absent
object property is an `Option`, JS truthiness of a string is "present and
nonempty", of a number "present and nonzero", and a property access on
`undefined` (a TypeError) is an `Except.error`.
-/

/-- Whether `pat` is a prefix of `hay` (structural recursion over the
characters, so the kernel can evaluate it on literals). -/
def listIsPrefix (pat : List Char) : List Char → Bool
  | [] => pat.isEmpty
  | h :: hs =>
    match pat with
    | [] => true
    | p :: ps => p == h && listIsPrefix ps hs

/-- Whether `pat` occurs as a contiguous run inside `hay`. -/
def listHasInfix (pat : List Char) : List Char → Bool
  | [] => pat.isEmpty
  | h :: hs => listIsPrefix pat (h :: hs) || listHasInfix pat hs

/-- JS `s.includes(pat)`. -/
def jsIncludes (s pat : String) : Bool := listHasInfix pat.data s.data

/-- JS `s.replace(pat, repl)` with a *string* pattern: replaces only the first
occurrence. -/
def replaceFirstChars (pat repl : List Char) : List Char → List Char
  | [] => if listIsPrefix pat [] then repl else []
  | h :: hs =>
    if listIsPrefix pat (h :: hs) then repl ++ (h :: hs).drop pat.length
    else h :: replaceFirstChars pat repl hs

def jsReplaceFirst (s pat repl : String) : String :=
  ⟨replaceFirstChars pat.data repl.data s.data⟩

/-- JS `line.replace(/^data: /, '')`: drop the pattern only when it is a
leading occurrence. -/
def jsDropLeading (s pat : String) : String :=
  if listIsPrefix pat.data s.data then ⟨s.data.drop pat.data.length⟩ else s

def isJsSpace (c : Char) : Bool := c == ' ' || c == '\t' || c == '\n' || c == '\r'

def dropLeadingWs : List Char → List Char
  | [] => []
  | c :: cs => if isJsSpace c then dropLeadingWs cs else c :: cs

/-- JS `s.trim()`. -/
def jsTrim (s : String) : String :=
  ⟨(dropLeadingWs (dropLeadingWs s.data.reverse).reverse)⟩

/-- JS `s.split(sep)` for a one-character separator. -/
def splitOnChar (sep : Char) : List Char → List (List Char)
  | [] => [[]]
  | c :: cs =>
    if c == sep then [] :: splitOnChar sep cs
    else
      match splitOnChar sep cs with
      | [] => [[c]]
      | g :: gs => (c :: g) :: gs

def jsSplitLines (s : String) : List String :=
  (splitOnChar '\n' s.data).map fun cs => ⟨cs⟩

/-- JS `s.toLowerCase()` (over the characters; ASCII as the catalog uses). -/
def jsToLower (s : String) : String := ⟨s.data.map Char.toLower⟩

/-- JS truthiness of a possibly-absent string property: present and nonempty. -/
def strTruthy : Option String → Bool
  | none => false
  | some s => s != ""

/-- JS truthiness of a possibly-absent number property: present and nonzero. -/
def natTruthy : Option Nat → Bool
  | none => false
  | some n => n != 0

/-! ## The Mistral client's error model and retry classifier
(`src/utils/mistralClient.js`) -/

/-- `error.response.data` as the classifier reads it: its `error` property is
the optional message string tested with `.includes('model not found')`. -/
structure RespData where
  error : Option String
deriving DecidableEq

/-- `error.response`: the HTTP status and the response body. -/
structure Resp where
  status : Nat
  data : Option RespData
deriving DecidableEq

/-- An axios error object as `_shouldRetryRequest` and the outer catch block
inspect it: `response` is absent for network-level errors, `request` records
whether a request went out, `code` is the network error code
(e.g. `'ECONNRESET'`). -/
structure JsError where
  response : Option Resp
  request : Bool
  message : String
  code : Option String
deriving DecidableEq

/-- `MistralClient._shouldRetryRequest` (mistralClient.js lines 253–291),
translated condition by condition in JS evaluation order.  The 404 check reads
`error.response && error.response.status === 404 || (error.response.data &&
error.response.data.error && error.response.data.error.includes('model not
found'))`: `&&` binds tighter than `||`, so when `error.response` is absent and
the left disjunct is falsy, the right disjunct dereferences
`error.response.data` on `undefined` — a TypeError, modelled as
`Except.error ()`. -/
def shouldRetryRequest (e : JsError) : Except Unit Bool :=
  -- Don't retry for authentication errors (invalid API key)
  if (match e.response with | some r => r.status == 401 | none => false) then
    Except.ok false
  -- Don't retry for bad requests (invalid parameters)
  else if (match e.response with | some r => r.status == 400 | none => false) then
    Except.ok false
  else
    -- Don't retry if the model doesn't exist (the 404 / model-not-found check)
    let left : Bool := match e.response with | some r => r.status == 404 | none => false
    if left then Except.ok false
    else
      match e.response with
      | none => Except.error ()   -- `error.response.data` with `response` undefined
      | some r =>
        let right : Bool :=
          match r.data with
          | none => false
          | some d =>
            match d.error with
            | none => false
            | some s => jsIncludes s "model not found"
        if right then Except.ok false
        -- Retry for rate limiting (429)
        else if r.status == 429 then Except.ok true
        -- Retry for server errors (>= 500)
        else if 500 ≤ r.status then Except.ok true
        -- Retry for network error codes
        else if (match e.code with
                 | some c =>
                   ["ECONNRESET", "ETIMEDOUT", "ECONNABORTED", "ENOTFOUND",
                     "EAI_AGAIN"].contains c
                 | none => false) then Except.ok true
        -- By default, retry
        else Except.ok true

/-- What one HTTP attempt of the retry loop produces: a successful reply text
or an axios error. -/
inductive AttemptOutcome where
  | ok (reply : String)
  | err (e : JsError)

/-- How the retry loop of `generateResponse` terminates. -/
inductive LoopOutcome where
  | success (reply : String)
  /-- `throw error` out of the loop: the original axios error propagates to
  the outer catch block. -/
  | raised (e : JsError)
  /-- The TypeError raised inside `_shouldRetryRequest` propagates instead of
  the axios error. -/
  | typeError
  | noResponse
deriving DecidableEq

/-- Observable trace of the retry loop: how many HTTP attempts were made, the
inter-attempt delays in milliseconds, and how the loop ended. -/
structure LoopResult where
  attempts : Nat
  delays : List Nat
  outcome : LoopOutcome
deriving DecidableEq

/-- The body of `while (retries < maxRetries)` in
`MistralClient.generateResponse` (lines 49–88).  `outcome k` is what the HTTP
attempt made with `retries = k` produces; `jitter k` models
`Math.random() * 1000` (in milliseconds, `< 1000`) for the delay computed when
`retries` has just been incremented to `k`.  `fuel` bounds the loop
(`maxRetries = 3` iterations suffice); on a failure the classifier runs, then
`retries` increments, the loop throws when `retries >= maxRetries`, otherwise
sleeps `2^retries * 1000 + jitter` — note the Mistral client applies no
`Math.min(…, 10000)` cap. -/
def generateLoopGo (outcome : Nat → AttemptOutcome) (jitter : Nat → Nat) :
    Nat → Nat → LoopResult
  | 0, _ => ⟨0, [], LoopOutcome.noResponse⟩
  | fuel + 1, retries =>
    match outcome retries with
    | AttemptOutcome.ok r => ⟨1, [], LoopOutcome.success r⟩
    | AttemptOutcome.err e =>
      match shouldRetryRequest e with
      | Except.error _ => ⟨1, [], LoopOutcome.typeError⟩
      | Except.ok false => ⟨1, [], LoopOutcome.raised e⟩
      | Except.ok true =>
        if 3 ≤ retries + 1 then ⟨1, [], LoopOutcome.raised e⟩
        else
          let d := 2 ^ (retries + 1) * 1000 + jitter (retries + 1)
          let rest := generateLoopGo outcome jitter fuel (retries + 1)
          ⟨1 + rest.attempts, d :: rest.delays, rest.outcome⟩

/-- The whole retry loop of `generateResponse`: `maxRetries = 3`, `retries`
starts at 0. -/
def generateLoop (outcome : Nat → AttemptOutcome) (jitter : Nat → Nat) : LoopResult :=
  generateLoopGo outcome jitter 3 0

/-- The outer catch block of `generateResponse` (lines 113–129): maps the
propagated axios error to the message of the `Error` thrown to the caller. -/
def handleGenerateError (e : JsError) : String :=
  match e.response with
  | some r =>
    if r.status == 401 then "Authentication failed: Invalid API key"
    else if r.status == 429 then "Rate limit exceeded: Too many requests"
    else if 500 ≤ r.status then "Mistral API server error: Please try again later"
    else "Failed to generate AI response: " ++ e.message
  | none =>
    if e.request then "No response from Mistral API: Network issue or service unavailable"
    else "Failed to generate AI response: " ++ e.message

/-- `MistralClient.generateResponse` at the level of its observable result:
either the reply text of a successful attempt, or the message of the error
thrown to the caller. -/
def generateResponse (outcome : Nat → AttemptOutcome) (jitter : Nat → Nat) :
    Except String String :=
  match (generateLoop outcome jitter).outcome with
  | LoopOutcome.success r => Except.ok r
  | LoopOutcome.raised e => Except.error (handleGenerateError e)
  | LoopOutcome.typeError =>
    -- the TypeError from `_shouldRetryRequest` has no `response`/`request`
    Except.error
      "Failed to generate AI response: Cannot read properties of undefined (reading 'data')"
  | LoopOutcome.noResponse => Except.error "Failed to generate AI response: undefined"

/-- A persistent HTTP 429 error (no response body). -/
def err429 : JsError := ⟨some ⟨429, none⟩, true, "Request failed with status code 429", none⟩

/-- A network-level `ECONNRESET` error: no HTTP response was received. -/
def errEconnReset : JsError := ⟨none, true, "socket hang up", some "ECONNRESET"⟩

/-- An HTTP 401 authentication error. -/
def err401 : JsError := ⟨some ⟨401, none⟩, true, "Request failed with status code 401", none⟩

/-- C2. The claim says every error class in {429, 500, 502, ECONNRESET} is
retried: up to 3 attempts with inter-attempt delays
`min(2^attempt * 1000 + random(0,1000), 10000)`.  The code only does this for
the classes that carry an HTTP response: a persistent 429 yields 3 attempts
with delays `2^1*1000 + jitter` and `2^2*1000 + jitter` (here jitter = 0).
For `ECONNRESET` the classifier `_shouldRetryRequest` itself faults — its 404
check dereferences `error.response.data` while `error.response` is undefined —
so `generateResponse` makes exactly one HTTP attempt, performs no backoff
delay, and throws the TypeError-derived generic message instead of retrying,
contradicting the code's own comment "Retry for network errors (ECONNRESET,
ETIMEDOUT, etc.)". -/
theorem mistral_econnreset_not_retried :
    generateLoop (fun _ => AttemptOutcome.err err429) (fun _ => 0) =
      ⟨3, [2000, 4000], LoopOutcome.raised err429⟩ ∧
    shouldRetryRequest errEconnReset = Except.error () ∧
    generateLoop (fun _ => AttemptOutcome.err errEconnReset) (fun _ => 0) =
      ⟨1, [], LoopOutcome.typeError⟩ ∧
    generateResponse (fun _ => AttemptOutcome.err errEconnReset) (fun _ => 0) =
      Except.error
        "Failed to generate AI response: Cannot read properties of undefined (reading 'data')" :=
  ⟨rfl, rfl, rfl, rfl⟩

/-- C3. For every error whose class is in {HTTP 401, HTTP 400, HTTP 404 with a
model-not-found message}, `generateResponse` makes exactly one HTTP attempt,
waits for no backoff delay, and raises immediately (the loop rethrows the
error without retrying). -/
theorem mistral_fatal_error_single_attempt
    (outcome : Nat → AttemptOutcome) (jitter : Nat → Nat) (e : JsError) (r : Resp)
    (h0 : outcome 0 = AttemptOutcome.err e) (hr : e.response = some r)
    (hs : r.status = 401 ∨ r.status = 400 ∨
      (r.status = 404 ∧ ∃ d s, r.data = some d ∧ d.error = some s ∧
        jsIncludes s "model not found" = true)) :
    generateLoop outcome jitter = ⟨1, [], LoopOutcome.raised e⟩ := by
  have hretry : shouldRetryRequest e = Except.ok false := by
    rcases hs with h | h | ⟨h, _⟩ <;>
      simp [shouldRetryRequest, hr, h]
  simp [generateLoop, generateLoopGo, h0, hretry]

/-- Witness for C3: a persistent 401 error yields one attempt, no delays, and
the rethrown error. -/
theorem mistral_fatal_error_single_attempt_witness :
    generateLoop (fun _ => AttemptOutcome.err err401) (fun _ => 0) =
      ⟨1, [], LoopOutcome.raised err401⟩ :=
  mistral_fatal_error_single_attempt (fun _ => AttemptOutcome.err err401) (fun _ => 0)
    err401 ⟨401, none⟩ rfl rfl (Or.inl rfl)

/-! ## Outbound message lists (`MistralClient.generateResponse` lines 32–63,
`MistralClient.generateStreamingResponse` lines 150–161) -/

/-- A chat message as both the repository's history and the vendor request
carry it. -/
structure Msg where
  role : String
  content : String
deriving DecidableEq

/-- The options object `generateResponse` receives (only the properties its
message construction reads). -/
structure GenOptions where
  system_prompt : Option String
  userLanguage : Option String
  inventoryAccess : Bool
deriving DecidableEq

/-- The language-aware default system prompt (mistralClient.js line 41). -/
def languageDefaultPrompt : String :=
  "You are a friendly and helpful AI assistant. Always greet the user appropriately when they say hello, hi, namaste, or any other greeting. Respond to basic greetings and questions like \"how are you\" in a conversational manner. Please respond in the same language as the user. If the user speaks in Hindi, respond in Hindi. If they speak in English, respond in English. If they speak in any other language, try to respond in that same language."

/-- The inventory-access instruction appended to the system prompt when
`options.inventoryAccess` is set (mistralClient.js line 46). -/
def inventoryInstruction : String :=
  "\n\nIMPORTANT INSTRUCTION: You have access to the product inventory information from the 'productinventories' collection. You MUST ONLY provide information about products that are available in the inventory data. If a user asks about a product or any information that is not in the inventory data, you MUST respond that you don't have that information or the product is not available in your inventory. DO NOT provide any information from your general knowledge about products, specifications, or any other details that are not explicitly mentioned in the inventory data provided to you. Always check if the product exists in the inventory before responding.\n\nWhen a user asks about product availability, you should respond in the same language as the user. If the user speaks in Hindi, respond in Hindi. If they speak in English, respond in English.\n\nFor product inventory queries, you can help users with:\n1. Checking if a product is available in stock\n2. Providing information about available quantity\n3. Helping place orders for available products\n4. Suggesting alternatives if a product is out of stock\n\nThe product inventory database contains information such as product name, SKU, available stock, and unit of measurement."

/-- The system prompt `generateResponse` synthesizes (lines 32–47): the
default, overridden by a nonempty `options.system_prompt`, else by the
language-aware default when `options.userLanguage` is set; the inventory
instruction is then appended whenever `options.inventoryAccess` holds. -/
def mistralSystemPrompt (opts : GenOptions) : String :=
  let base :=
    if strTruthy opts.system_prompt then opts.system_prompt.getD ""
    else if strTruthy opts.userLanguage then languageDefaultPrompt
    else "You are a helpful AI assistant."
  if opts.inventoryAccess then base ++ inventoryInstruction else base

/-- The per-message mapping both request builders apply: internal role `bot`
becomes vendor role `assistant`, every other role becomes `user`. -/
def mistralMapMsg (m : Msg) : Msg :=
  ⟨if m.role == "bot" then "assistant" else "user", m.content⟩

/-- The `messages` array of the request body `generateResponse` posts
(lines 51–63), written out as the code builds it. -/
def mistralGenMessages (opts : GenOptions) (history : List Msg) : List Msg :=
  ⟨"system",
    (if strTruthy opts.system_prompt then opts.system_prompt.getD ""
     else if strTruthy opts.userLanguage then languageDefaultPrompt
     else "You are a helpful AI assistant.") ++
      (if opts.inventoryAccess then inventoryInstruction else "")⟩ ::
    history.map fun msg => ⟨if msg.role == "bot" then "assistant" else "user", msg.content⟩

/-- The `messages` array of the request body `generateStreamingResponse` posts
(lines 150–158): only the mapped history — the streaming variant computes no
system prompt at all. -/
def mistralStreamMessages (history : List Msg) : List Msg :=
  history.map fun msg => ⟨if msg.role == "bot" then "assistant" else "user", msg.content⟩

/-- The concrete history and options of the C7 counterexample. -/
def hist7 : List Msg := [⟨"user", "hi"⟩]

def opts7 : GenOptions := ⟨some "Be terse.", none, false⟩

/-- Counterexample to C7 as stated: the claim says *both* `generateResponse`
and the streaming variant build one synthesized system message followed by the
mapped history; but for this history and config the streaming variant's
message list has no system message (it is just the mapped history, one message
whose role is `user`). -/
theorem stream_messages_lack_system_cex :
    mistralStreamMessages hist7 ≠
      Msg.mk "system" (mistralSystemPrompt opts7) :: hist7.map mistralMapMsg := by
  decide

/-- C7 amended: `generateResponse` builds exactly one synthesized system
message — the nonempty `config.systemPrompt` if present, else a language-aware
default when a user language is given, else a generic default, with the
inventory instruction appended whenever inventory access is enabled — followed
by the mapped history in order (`bot` ↦ `assistant`, every other role ↦
`user`); the streaming variant `generateStream` builds only the mapped
history, with no system message. -/
theorem outbound_message_lists (opts : GenOptions) (history : List Msg) :
    mistralGenMessages opts history =
      Msg.mk "system" (mistralSystemPrompt opts) :: history.map mistralMapMsg ∧
    mistralStreamMessages history = history.map mistralMapMsg ∧
    ∀ c : String, mistralMapMsg ⟨"bot", c⟩ = ⟨"assistant", c⟩ := by
  refine ⟨?_, rfl, fun c => rfl⟩
  unfold mistralGenMessages mistralSystemPrompt mistralMapMsg
  by_cases h1 : strTruthy opts.system_prompt <;>
    by_cases h2 : strTruthy opts.userLanguage <;>
    by_cases h3 : opts.inventoryAccess <;>
    simp [h1, h2, h3]

/-! ## The intent endpoint's resolution step (part_012 lines 312–327)

`POST /intent` calls `aiClientManager.generateResponse(...)` — which returns
the selected client's `generateResponse` result verbatim — and then runs
`JSON.parse(intentAnalysis.content)` inside a try/catch, falling back to
`{intent: 'other', productName: null, quantity: null}` when the parse throws.
The clients' success objects are built in mistralClient.js lines 96–101
(`{reply, model, usage, latency}`) and openaiClient.js lines 210–214
(`{reply, model, usage}`): neither has a `content` property, so
`intentAnalysis.content` is `undefined` and `JSON.parse(undefined)` (i.e. of
the string `"undefined"`) throws a SyntaxError on every input. -/

/-- A JS object as the route reads it: the string-valued properties it may
access (`usage`/`latency` are rendered as strings here; only the presence and
value of `content` matter to the pipeline). -/
structure JsObj where
  fields : List (String × String)
deriving DecidableEq

/-- JS property access `o[k]`: `none` is `undefined`. -/
def jsGet (o : JsObj) (k : String) : Option String :=
  (o.fields.find? fun kv => kv.1 == k).map fun kv => kv.2

/-- The success value of `MistralClient.generateResponse`
(mistralClient.js lines 96–101). -/
def mistralResultObj (reply model usage latency : String) : JsObj :=
  ⟨[("reply", reply), ("model", model), ("usage", usage), ("latency", latency)]⟩

/-- The success value of `OpenAIClient.generateResponse`
(openaiClient.js lines 210–214). -/
def openaiResultObj (reply model usage : String) : JsObj :=
  ⟨[("reply", reply), ("model", model), ("usage", usage)]⟩

/-- The parsed shape the intent endpoint expects from the model. -/
structure IntentData where
  intent : String
  productName : Option String
  quantity : Option Nat
deriving DecidableEq

/-- The fallback assigned in the catch block (part_012 lines 321–327). -/
def fallbackIntent : IntentData := ⟨"other", none, none⟩

/-- `JSON.parse(intentAnalysis.content)` wrapped in the route's try/catch
(part_012 lines 318–327).  `parse` is the JSON parser on strings (`none` =
SyntaxError); accessing `content` on an object without that property yields
`undefined`, and `JSON.parse(undefined)` throws, so both failure modes land in
the catch block and produce `fallbackIntent`. -/
def resolveIntent (parse : String → Option IntentData) (aiResult : JsObj) : IntentData :=
  match jsGet aiResult "content" with
  | none => fallbackIntent
  | some s => (parse s).getD fallbackIntent

/-- C8. The resolution step is a total function of the AI result (it cannot
propagate a parse exception), and whenever the parse of the `content` property
fails — the property is absent, or the parser rejects its value — the result
is the fallback `{intent:'other', productName:null, quantity:null}`. -/
theorem intent_parse_failure_fallback
    (parse : String → Option IntentData) (aiResult : JsObj)
    (h : ∀ s, jsGet aiResult "content" = some s → parse s = none) :
    resolveIntent parse aiResult = fallbackIntent := by
  unfold resolveIntent
  cases hc : jsGet aiResult "content" with
  | none => rfl
  | some s => simp [h s hc]

/-- Witness for C8: an object whose `content` is present but not JSON, with a
parser that rejects everything. -/
theorem intent_parse_failure_fallback_witness :
    resolveIntent (fun _ => none) ⟨[("content", "not json")]⟩ = fallbackIntent :=
  intent_parse_failure_fallback (fun _ => none) ⟨[("content", "not json")]⟩
    (fun _ _ => rfl)

/-! ## The inventory routes (part_012)

State per bot: the product catalog (`ProductInventory.find({botId})`) and the
recorded order requests (`OrderRequest` documents).  The fuzzy matcher
(`fuzzy-search` npm package over `['productName']`) is third-party code, so
the route models are parameterized over an arbitrary matcher
`search : List Product → String → List Product`; `searchResults[0]` is its
head.  `fuzzySearchModel` below is one concrete executable matcher
(case-insensitive substring) used for closed witnesses and counterexamples. -/

/-- A `ProductInventory` document (the fields the routes read). -/
structure Product where
  productName : String
  sku : String
  availableStock : Nat
  unit : String
deriving DecidableEq

/-- Status of an `OrderRequest` document (the chat routes store only
`pending`/`confirmed`; the admin route can also set `rejected`). -/
inductive OrderStatus where
  | pending
  | confirmed
  | rejected
deriving DecidableEq

/-- An `OrderRequest` document (the fields the claims concern; `botId`,
`userId` and `sessionId` are identities held fixed per request). -/
structure Order where
  productName : String
  requestedQty : Nat
  userQuery : String
  status : OrderStatus
deriving DecidableEq

/-- The backing store a request of one bot sees. -/
structure InvState where
  products : List Product
  orders : List Order
deriving DecidableEq

/-- A concrete matcher instance: case-insensitive substring match on
`productName`, in catalog order.  (The `fuzzy-search` package with
`caseSensitive:false, sort:true` ranks case-insensitive matches; theorems
quantify over the matcher, this instance only feeds closed statements.) -/
def fuzzySearchModel (products : List Product) (query : String) : List Product :=
  products.filter fun p => jsIncludes (jsToLower p.productName) (jsToLower query)

/-- `POST /api/chat/inventory/order` (part_012 lines 172–209): fetch the
bot's products, fuzzy-search the requested name, take the first result as the
matched product, create an `OrderRequest` with status `pending` (named after
the matched product when there is one), then — if a product matched and
`matchedProduct.availableStock >= requestedQty` — save it with status
`confirmed`.  The stock decrement (lines 202–203) is commented out in the
source, so the catalog is untouched.  Returns the new store and the stored
record. -/
def postOrder (search : List Product → String → List Product)
    (st : InvState) (productName : String) (requestedQty : Nat) (userQuery : String) :
    InvState × Order :=
  let matched := (search st.products productName).head?
  let status :=
    match matched with
    | some p => if requestedQty ≤ p.availableStock then OrderStatus.confirmed
                else OrderStatus.pending
    | none => OrderStatus.pending
  let ord : Order :=
    ⟨(match matched with | some p => p.productName | none => productName),
      requestedQty, userQuery, status⟩
  (⟨st.products, st.orders ++ [ord]⟩, ord)

/-- Which reply template the intent route selects (part_012 lines 329–425);
the Hindi/English variants of one template are the same constructor — the
language flag only picks the wording. -/
inductive Reply where
  | noProducts
  | notFound (productName : String)
  | available (productName : String) (stock : Nat) (unit : String)
  | outOfStock (productName : String)
  | orderConfirmed (qty : Nat) (unit : String) (productName : String)
  | reduceQty (stock : Nat) (unit : String) (productName : String)
  | help
deriving DecidableEq

/-- The orchestration of `POST /api/chat/inventory/intent` after intent
resolution (part_012 lines 336–425): the stock-check branch, the order branch
— which creates an `OrderRequest` with status `confirmed` only under
`product.availableStock >= intentData.quantity`, answers `reduceQty` when
`0 < availableStock < quantity` without creating a record, and `outOfStock`
at zero stock — and the fallback help reply.  The guards use JS truthiness:
the branch fires only when `productName` is a nonempty string (and, for
orders, `quantity` a nonzero number). -/
def processTurn (search : List Product → String → List Product)
    (st : InvState) (d : IntentData) (message : String) : InvState × Reply :=
  if d.intent == "inventory_check" && strTruthy d.productName then
    if st.products.isEmpty then (st, Reply.noProducts)
    else
      match (search st.products (d.productName.getD "")).head? with
      | none => (st, Reply.notFound (d.productName.getD ""))
      | some p =>
        if 0 < p.availableStock then (st, Reply.available p.productName p.availableStock p.unit)
        else (st, Reply.outOfStock p.productName)
  else if d.intent == "order_intent" && strTruthy d.productName && natTruthy d.quantity then
    if st.products.isEmpty then (st, Reply.noProducts)
    else
      match (search st.products (d.productName.getD "")).head? with
      | none => (st, Reply.notFound (d.productName.getD ""))
      | some p =>
        if d.quantity.getD 0 ≤ p.availableStock then
          (⟨st.products,
              st.orders ++
                [⟨p.productName, d.quantity.getD 0, message, OrderStatus.confirmed⟩]⟩,
            Reply.orderConfirmed (d.quantity.getD 0) p.unit p.productName)
        else if 0 < p.availableStock then
          (st, Reply.reduceQty p.availableStock p.unit p.productName)
        else (st, Reply.outOfStock p.productName)
  else (st, Reply.help)

/-- C4. For every reply the AI clients produce, the intent endpoint's
resolution step yields the fallback `{intent:'other', productName:null,
quantity:null}`: the route parses `intentAnalysis.content`, but both clients'
success objects carry the text under `reply` and have no `content` property,
so `JSON.parse(undefined)` throws on every input regardless of the JSON
parser's behavior on actual strings; consequently every turn through this
endpoint takes the fallback branch of the orchestrator — the stock-check and
order branches are unreachable — and answers the help template with the store
untouched. -/
theorem intent_resolution_always_fallback
    (parse : String → Option IntentData) (reply model usage latency : String)
    (search : List Product → String → List Product) (st : InvState) (message : String) :
    resolveIntent parse (mistralResultObj reply model usage latency) = fallbackIntent ∧
    resolveIntent parse (openaiResultObj reply model usage) = fallbackIntent ∧
    processTurn search st
      (resolveIntent parse (mistralResultObj reply model usage latency)) message =
      (st, Reply.help) ∧
    processTurn search st fallbackIntent message = (st, Reply.help) :=
  ⟨rfl, rfl, rfl, rfl⟩

/-- C1. In both order operations, a record's status is `confirmed` only when
the matched product's `availableStock` is at least the requested quantity at
evaluation time: the direct order endpoint stores `confirmed` exactly when a
product matched and had sufficient stock (and `pending` in every other case),
and every order the intent-driven branch adds to the store is a `confirmed`
record whose requested quantity is covered by the matched product's stock. -/
theorem order_confirmed_requires_stock
    (search : List Product → String → List Product) (st : InvState)
    (productName userQuery message : String) (requestedQty : Nat) (d : IntentData) :
    ((postOrder search st productName requestedQty userQuery).2.status =
        OrderStatus.confirmed ↔
      ∃ p, (search st.products productName).head? = some p ∧
        requestedQty ≤ p.availableStock) ∧
    (∀ o ∈ (processTurn search st d message).1.orders,
      o ∈ st.orders ∨
        (o.status = OrderStatus.confirmed ∧
          ∃ p, (search st.products (d.productName.getD "")).head? = some p ∧
            o.requestedQty ≤ p.availableStock)) := by
  constructor
  · rcases hh : (search st.products productName).head? with _ | p
    · simp [postOrder, hh]
    · by_cases hq : requestedQty ≤ p.availableStock <;> simp [postOrder, hh, hq]
  · intro o ho
    unfold processTurn at ho
    repeat' split at ho
    all_goals try exact Or.inl ho
    rename_i p hp hq
    rcases List.mem_append.mp ho with h | h
    · exact Or.inl h
    · rcases List.mem_singleton.mp h with rfl
      exact Or.inr ⟨rfl, p, hp, hq⟩

/-- C5. Partial stock in the intent-driven order branch: when the matched
product's stock is strictly positive and strictly below the requested
quantity, the orchestrator answers the "only N available, reduce quantity?"
template, creates no `OrderRequest`, and leaves the store untouched. -/
theorem reduce_quantity_creates_no_order
    (search : List Product → String → List Product) (st : InvState)
    (pname message : String) (qty : Nat) (p : Product)
    (hp : pname ≠ "") (hq : qty ≠ 0) (hne : st.products ≠ [])
    (hm : (search st.products pname).head? = some p)
    (h0 : 0 < p.availableStock) (hlt : p.availableStock < qty) :
    processTurn search st ⟨"order_intent", some pname, some qty⟩ message =
      (st, Reply.reduceQty p.availableStock p.unit p.productName) := by
  have hempty : st.products.isEmpty = false := by
    cases h : st.products with
    | nil => exact absurd h hne
    | cons a l => rfl
  simp [processTurn, strTruthy, natTruthy, hp, hq, hempty, hm, not_le.mpr hlt, h0]

/-- The concrete store of the C5 witness and C6 counterexample contexts. -/
def stMobile : InvState := ⟨[⟨"Mobile Phone", "SKU-MP", 1, "pcs"⟩], []⟩

/-- Witness for C5: one mobile phone in stock, two requested. -/
theorem reduce_quantity_creates_no_order_witness :
    processTurn fuzzySearchModel stMobile ⟨"order_intent", some "mobile phone", some 2⟩
        "need 2 phones" =
      (stMobile, Reply.reduceQty 1 "pcs" "Mobile Phone") :=
  reduce_quantity_creates_no_order fuzzySearchModel stMobile "mobile phone" "need 2 phones"
    2 ⟨"Mobile Phone", "SKU-MP", 1, "pcs"⟩ (by decide) (by decide) (by decide)
    (by decide) (by decide) (by decide)

/-- The concrete store of the C6 counterexample. -/
def stBulb : InvState := ⟨[⟨"LED Bulb", "SKU-LB", 54, "pcs"⟩], []⟩

/-- Counterexample to C6 as stated: an order for 2 of a product with 54 in
stock is stored `confirmed`, yet at confirmation time the catalog is
unchanged — the stock stays 54 instead of being decremented to 52 (this
route's decrement, part_012 lines 201–203, is commented out; a decrement can
happen only later, if an admin re-confirms the order through the admin
route). -/
theorem confirmed_order_keeps_stock_cex :
    (postOrder fuzzySearchModel stBulb "LED Bulb" 2 "I want 2 LED bulbs").2.status =
      OrderStatus.confirmed ∧
    (postOrder fuzzySearchModel stBulb "LED Bulb" 2 "I want 2 LED bulbs").1.products =
      [⟨"LED Bulb", "SKU-LB", 54, "pcs"⟩] ∧
    (postOrder fuzzySearchModel stBulb "LED Bulb" 2 "I want 2 LED bulbs").1.products ≠
      [⟨"LED Bulb", "SKU-LB", 52, "pcs"⟩] := by
  refine ⟨?_, ?_, ?_⟩ <;> decide

/-- The status the admin route stores for each accepted request-body string
(validated beforehand against `['pending','confirmed','rejected']`). -/
def statusOfString (s : String) : OrderStatus :=
  if s == "pending" then OrderStatus.pending
  else if s == "confirmed" then OrderStatus.confirmed
  else OrderStatus.rejected

/-- `product.availableStock -= orderRequest.requestedQty; product.save()`
applied to the document `ProductInventory.findOne` returns: the first catalog
record with the given name, with its stock decremented. -/
def decrementFirst (name : String) (qty : Nat) : List Product → List Product
  | [] => []
  | p :: ps =>
    if p.productName == name then
      { p with availableStock := p.availableStock - qty } :: ps
    else p :: decrementFirst name qty ps

/-- `PATCH /api/admin/inventory/order/:id` (adminInventoryRoutes.js lines
462–506): validate the requested status against
`['pending','confirmed','rejected']` (400 otherwise, modelled `none`), find
the order (`idx` stands for the `findById` lookup; 404 when absent), store the
new status on it, and — only when the new status is `'confirmed'` — look up
the product whose `productName` equals the order's (`ProductInventory.findOne`
on the same bot) and, if it exists with `availableStock >= requestedQty`,
decrement its stock by `requestedQty`; in every other case the catalog is
untouched.  (The optional `notes` annotation is not modelled.) -/
def adminPatchOrder (st : InvState) (idx : Nat) (status : String) : Option InvState :=
  if !(["pending", "confirmed", "rejected"].contains status) then none
  else
    match st.orders[idx]? with
    | none => none
    | some ord =>
      some
        ⟨(if status == "confirmed" then
            match st.products.find? fun q => q.productName == ord.productName with
            | some p =>
              if ord.requestedQty ≤ p.availableStock then
                decrementFirst ord.productName ord.requestedQty st.products
              else st.products
            | none => st.products
          else st.products),
          st.orders.set idx { ord with status := statusOfString status }⟩

/-- After `decrementFirst`, the record `findOne` returned carries the
decremented stock. -/
theorem decrementFirst_find (name : String) (qty : Nat) (ps : List Product) (p : Product)
    (h : ps.find? (fun q => q.productName == name) = some p) :
    (decrementFirst name qty ps).find? (fun q => q.productName == name) =
      some { p with availableStock := p.availableStock - qty } := by
  induction ps with
  | nil => simp at h
  | cons a l ih =>
    by_cases ha : a.productName == name
    · simp only [List.find?, ha] at h
      obtain rfl : a = p := by simpa using h
      simp [decrementFirst, ha, List.find?]
    · simp only [List.find?, ha] at h
      simp only [decrementFirst, ha, List.find?]
      exact ih h

/-- `decrementFirst` only edits a stock field: the catalog's names (hence its
records) are all still there. -/
theorem decrementFirst_names (name : String) (qty : Nat) (ps : List Product) :
    (decrementFirst name qty ps).map (fun q => q.productName) =
      ps.map fun q => q.productName := by
  induction ps with
  | nil => rfl
  | cons a l ih => by_cases ha : a.productName == name <;> simp [decrementFirst, ha, ih]

/-- C6 amended: at confirmation time in the chat routes nothing is
decremented — the direct order endpoint and the intent-driven order branch
leave every catalog record exactly as it was (their decrement is
commented-out code, part_012 lines 201–203).  The decrement the claim
describes lives on the admin confirmation path: when `PATCH /order/:id` sets
an order's status to `confirmed`, the catalog record whose `productName`
equals the order's has `availableStock` decremented by `requestedQty`,
provided such a record exists with stock at least `requestedQty`; with a
non-confirming status, an unmatched product, or insufficient stock the
catalog is unchanged — and no record is ever deleted (the catalog keeps the
same products throughout). -/
theorem confirmed_order_stock_effect
    (search : List Product → String → List Product) (st : InvState)
    (pname userQuery message status : String) (qty idx : Nat) (d : IntentData) :
    (postOrder search st pname qty userQuery).1.products = st.products ∧
    (processTurn search st d message).1.products = st.products ∧
    (∀ ord p st', st.orders[idx]? = some ord →
      st.products.find? (fun q => q.productName == ord.productName) = some p →
      ord.requestedQty ≤ p.availableStock →
      adminPatchOrder st idx "confirmed" = some st' →
      st'.products = decrementFirst ord.productName ord.requestedQty st.products ∧
        st'.products.find? (fun q => q.productName == ord.productName) =
          some { p with availableStock := p.availableStock - ord.requestedQty } ∧
        st'.products.map (fun q => q.productName) =
          st.products.map fun q => q.productName) ∧
    (∀ st', status ≠ "confirmed" → adminPatchOrder st idx status = some st' →
      st'.products = st.products) ∧
    (∀ ord st', st.orders[idx]? = some ord →
      (∀ p, st.products.find? (fun q => q.productName == ord.productName) = some p →
        p.availableStock < ord.requestedQty) →
      adminPatchOrder st idx "confirmed" = some st' → st'.products = st.products) := by
  refine ⟨rfl, ?_, ?_, ?_, ?_⟩
  · unfold processTurn
    repeat' split <;> try rfl
  · intro ord p st' hord hfind hle hadm
    unfold adminPatchOrder at hadm
    rw [hord] at hadm
    simp [hfind, hle] at hadm
    subst hadm
    exact ⟨rfl, decrementFirst_find _ _ _ _ hfind, decrementFirst_names _ _ _⟩
  · intro st' hne hadm
    unfold adminPatchOrder at hadm
    split at hadm
    · exact absurd hadm (by simp)
    · cases hord : st.orders[idx]? with
      | none => rw [hord] at hadm; exact absurd hadm (by simp)
      | some ord =>
        rw [hord] at hadm
        have hb : (status == "confirmed") = false := by simpa using hne
        simp [hb] at hadm
        subst hadm
        rfl
  · intro ord st' hord hlt hadm
    unfold adminPatchOrder at hadm
    rw [hord] at hadm
    cases hfind : st.products.find? fun q => q.productName == ord.productName with
    | none =>
      simp [hfind] at hadm
      subst hadm
      rfl
    | some p =>
      simp [hfind, Nat.not_le.mpr (hlt p hfind)] at hadm
      subst hadm
      rfl

/-! ## Streaming line handlers

`MistralClient.generateStreamingResponse` (mistralClient.js lines 188–214) and
`OpenAIClient.generateStreamingResponse` (openaiClient.js lines 274–301)
consume the vendor byte stream chunk by chunk and drive the caller's `onChunk`
sink.  `JSON.parse` of a data line together with the
`parsed.choices[0]?.delta?.content` access is modelled by a parameter
`parseDelta : String → Option (Option String)`: `none` is a parse failure
(caught and logged, the stream continues), `some none` a payload with no
content delta, `some (some c)` a delta carrying `c`. -/

/-- One invocation of the sink, as observed by the caller. -/
inductive StreamEvent where
  | content (s : String)
  | done
deriving DecidableEq

def listFlatMap (f : α → List β) : List α → List β
  | [] => []
  | a :: as => f a ++ listFlatMap f as

/-- One line of a chunk through the Mistral `data` handler (lines 192–208):
lines containing `data:` have the tag stripped and trimmed; `[DONE]` signals
completion via `onChunk(null, true)`; otherwise the payload is parsed and a
truthy content delta is forwarded; parse failures are logged and swallowed. -/
def mistralLineEvents (parseDelta : String → Option (Option String)) (line : String) :
    List StreamEvent :=
  if jsIncludes line "data:" then
    if jsTrim (jsReplaceFirst line "data:" "") == "[DONE]" then [StreamEvent.done]
    else
      match parseDelta (jsTrim (jsReplaceFirst line "data:" "")) with
      | none => []
      | some none => []
      | some (some c) => if c == "" then [] else [StreamEvent.content c]
  else []

/-- The Mistral streaming handler over a whole stream: each chunk is split on
newlines, blank lines dropped, each line handled in order; the `end` listener
(line 212) only logs, adding no sink call. -/
def mistralStreamEvents (parseDelta : String → Option (Option String))
    (chunks : List String) : List StreamEvent :=
  listFlatMap
    (fun chunk =>
      listFlatMap (mistralLineEvents parseDelta)
        ((jsSplitLines chunk).filter fun l => !(jsTrim l == "")))
    chunks

/-- The OpenAI `data` handler over the (already blank-filtered) lines of one
chunk (openaiClient.js lines 275–295): a line containing `[DONE]` emits
`onChunk({done:true})` and returns — abandoning the rest of that chunk;
otherwise the line has a leading `data: ` stripped, is trimmed and parsed, a
truthy content delta is forwarded, and parse failures are swallowed. -/
def openaiLinesEvents (parseDelta : String → Option (Option String)) :
    List String → List StreamEvent
  | [] => []
  | l :: ls =>
    if jsIncludes l "[DONE]" then [StreamEvent.done]
    else
      match parseDelta (jsTrim (jsDropLeading l "data: ")) with
      | none => openaiLinesEvents parseDelta ls
      | some none => openaiLinesEvents parseDelta ls
      | some (some c) =>
        (if c == "" then [] else [StreamEvent.content c]) ++ openaiLinesEvents parseDelta ls

/-- The OpenAI streaming handler over a whole stream.  Its `end` listener
(lines 297–301) invokes `onChunk({done:true})` again when the byte stream
ends — in addition to the `[DONE]`-line signal. -/
def openaiStreamEvents (parseDelta : String → Option (Option String))
    (chunks : List String) : List StreamEvent :=
  listFlatMap
    (fun chunk =>
      openaiLinesEvents parseDelta ((jsSplitLines chunk).filter fun l => !(jsTrim l == "")))
    chunks
  ++ [StreamEvent.done]

/-- The delta parser of the C9 evaluation: three payloads carrying nonempty
content deltas, everything else a parse failure. -/
def parseDelta9 : String → Option (Option String) := fun s =>
  if s == "P1" then some (some "Hel")
  else if s == "P2" then some (some "lo")
  else if s == "P3" then some (some "!")
  else none

/-- The C9 byte stream: three delta lines, then the `[DONE]` terminator. -/
def chunk9 : String := "data: P1\ndata: P2\ndata: P3\ndata: [DONE]\n"

/-- C9 evaluated.  The claim says the handler invokes the sink exactly 3 times
with content and then exactly once with the done signal, done at most once.
The Mistral handler does exactly that; the OpenAI handler — also a source of
this claim — signals done **twice** on the same stream: once for the `[DONE]`
line and once more from its `end` listener, violating the at-most-once-done
contract. -/
theorem openai_stream_double_done :
    mistralStreamEvents parseDelta9 [chunk9] =
      [StreamEvent.content "Hel", StreamEvent.content "lo", StreamEvent.content "!",
        StreamEvent.done] ∧
    openaiStreamEvents parseDelta9 [chunk9] =
      [StreamEvent.content "Hel", StreamEvent.content "lo", StreamEvent.content "!",
        StreamEvent.done, StreamEvent.done] := by
  constructor <;> rfl

/-! ## Provider selection (`AIClientManager.getClient`, part_009 lines 20–37) -/

/-- The registered provider clients, as identities. -/
inductive AIClient where
  | mistral
  | openai
deriving DecidableEq

/-- `this.clients`: the provider registry built in the constructor. -/
def clientsRegistry : String → Option AIClient := fun s =>
  if s == "mistral" then some AIClient.mistral
  else if s == "openai" then some AIClient.openai
  else none

/-- `this.defaultProvider = 'mistral'`. -/
def defaultProviderName : String := "mistral"

/-- `this.clients[this.defaultProvider]`: the Mistral client. -/
def defaultClient : AIClient := AIClient.mistral

/-- The `ai` sub-object of a bot configuration (only the property `getClient`
branches on). -/
structure AiSettings where
  provider : Option String
deriving DecidableEq

/-- A bot configuration as `getClient` reads it. -/
structure BotConfig where
  ai : Option AiSettings
deriving DecidableEq

/-- `AIClientManager.getClient(config)`: the default client when `config.ai`
or a truthy `config.ai.provider` is missing; otherwise the provider name is
lowercased and looked up, falling back to the default when unregistered. -/
def getClient (config : BotConfig) : AIClient :=
  match config.ai with
  | none => defaultClient
  | some aiCfg =>
    if !strTruthy aiCfg.provider then defaultClient
    else
      match clientsRegistry (jsToLower (aiCfg.provider.getD "")) with
      | none => defaultClient
      | some client => client

/-- Modelled from the spec's words for the refinement side of C10:
"If `config` lacks a provider name or names an unregistered provider, return
the default provider's client; otherwise return the exact match."  Provider
names are matched as the registry is keyed (case-insensitively: the code
normalizes with `toLowerCase`, and an empty name counts as lacking). -/
def selectSpec (config : BotConfig) : AIClient :=
  match config.ai with
  | none => defaultClient
  | some aiCfg =>
    match aiCfg.provider with
    | none => defaultClient
    | some p =>
      if p == "" then defaultClient
      else
        match clientsRegistry (jsToLower p) with
        | none => defaultClient
        | some client => client

/-- C10. Selection is deterministic given the fixed registry (the function is
pure: equal configs give equal client identities), it agrees with the spec's
description, it returns the exact registered match whenever the config names a
registered provider, and it returns the default provider's client whenever the
config lacks a provider name or names an unregistered one. -/
theorem getClient_deterministic_fallback (config : BotConfig) :
    getClient config = getClient config ∧
    getClient config = selectSpec config ∧
    (∀ p c, config.ai.bind (fun a => a.provider) = some p →
      clientsRegistry (jsToLower p) = some c → getClient config = c) ∧
    ((config.ai.bind (fun a => a.provider) = none ∨
      config.ai.bind (fun a => a.provider) = some "" ∨
      ∃ p, config.ai.bind (fun a => a.provider) = some p ∧
        clientsRegistry (jsToLower p) = none) →
      getClient config = defaultClient) := by
  obtain ⟨ai⟩ := config
  refine ⟨rfl, ?_, ?_, ?_⟩
  · cases ai with
    | none => rfl
    | some a =>
      cases hp : a.provider with
      | none => simp [getClient, selectSpec, strTruthy, hp]
      | some p =>
        by_cases h : p = "" <;> simp [getClient, selectSpec, strTruthy, hp, h]
  · intro p c hp hc
    cases ai with
    | none => simp at hp
    | some a =>
      simp only [Option.bind] at hp
      by_cases h : p = ""
      · subst h
        have : clientsRegistry (jsToLower "") = none := rfl
        rw [this] at hc
        exact absurd hc (by simp)
      · simp [getClient, strTruthy, hp, h, hc]
  · intro h
    cases ai with
    | none => rfl
    | some a =>
      rcases h with h | h | ⟨p, hp, hreg⟩
      · simp only [Option.bind] at h
        simp [getClient, strTruthy, h]
      · simp only [Option.bind] at h
        simp [getClient, strTruthy, h]
      · simp only [Option.bind] at hp
        by_cases he : p = ""
        · subst he
          simp [getClient, strTruthy, hp]
        · simp [getClient, strTruthy, hp, he, hreg]
